import Mathlib

/-!
# Meeting-room reservation API: a shallow embedding

This file embeds the core of the meeting-room reservation service
(`src/database.ts`, `src/services/reservationService.ts`, `src/index.ts`)
in Lean 4 and proves the specified properties of the admission engine,
the cancel operation and the query operation.

Modelling conventions:
* Instants are `Int` milliseconds since the Unix epoch (the value of
  `Date#getTime()`; JavaScript `Date` comparison operators compare these
  numbers, exactly).
* `new Date(string)` parsing is host-library behaviour; a parsed request
  time is modelled as `Option Int`, with `none` standing for an invalid
  date (`isNaN(d.getTime())`).
* The service reads the wall clock three times during one create call:
  `const now = new Date()` (used by the past check and `createdAt`), a
  second `new Date()` that seeds `oneYearFromNow`, and a third one inside
  `Database.getActiveReservationsByUser`.  A `Clock` records the three
  readings so the distinction stays observable.
* `Date#setFullYear(getFullYear() + 1)` is host calendar arithmetic; it is
  abstracted as a parameter `addYear : Int → Int` (the instant one
  calendar year after its argument).
* The duration check divides by 60000 in floating point; for millisecond
  differences in the `Date` range the comparisons `d/60000 < 15` and
  `d/60000 > 480` agree exactly with `d < 900000` and `d > 28800000`,
  which is how they are rendered here.
-/

namespace MeetingRoom

/-- A stored reservation (`Reservation` in `src/types.ts`). -/
structure Reservation where
  id : String
  roomId : String
  userId : String
  startTime : Int
  endTime : Int
  createdAt : Int
deriving DecidableEq, Repr

/-- A room of the catalog (`Room` in `src/types.ts`). -/
structure Room where
  id : String
  name : String
deriving DecidableEq, Repr

/-- The fixed room catalog `Rooms` of `src/database.ts`. -/
def Rooms : List Room :=
  [⟨"room1", "Room 1"⟩, ⟨"room2", "Room 2"⟩, ⟨"room3", "Room 3"⟩]

/-- Source `Database.getRoom`: resolve a room id in the catalog. -/
def getRoom (id : String) : Option Room :=
  Rooms.find? fun r => r.id == id

/-- The half-open interval overlap predicate `overlaps` of `src/database.ts`:
`aStart < bEnd && bStart < aEnd`. -/
def overlaps (aStart aEnd bStart bEnd : Int) : Bool :=
  decide (aStart < bEnd) && decide (bStart < aEnd)

/-- Source `Database.getReservation`: lookup by id (first match). -/
def getReservation (st : List Reservation) (id : String) : Option Reservation :=
  st.find? fun r => r.id == id

/-- The filter argument of `Database.getReservations`. -/
structure QFilter where
  roomId : Option String
  start : Option Int
  endT : Option Int

/-- Sentinel `new Date(0)`: the sentinel used for an absent window start. -/
def epochMs : Int := 0

/-- Sentinel `new Date("9999-12-31")` = 9999-12-31T00:00:00Z: the sentinel used for
an absent window end. -/
def farFutureMs : Int := 253402214400000

/-- Source `Database.getReservations`: filtered scan.  `if (filter.roomId)` is a
JavaScript truthiness test, so an empty-string room filter is skipped; the
window branch runs when at least one bound is supplied (a `Date` object is
always truthy) and substitutes the sentinels for absent bounds. -/
def getReservations (st : List Reservation) (f : QFilter) : List Reservation :=
  st.filter fun r =>
    (match f.roomId with
     | some rid => if rid = "" then true else r.roomId == rid
     | none => true)
    &&
    (if f.start.isSome || f.endT.isSome then
       overlaps (f.start.getD epochMs) (f.endT.getD farFutureMs) r.startTime r.endTime
     else true)

/-- Source `Database.getActiveReservationsByUser`: the user's reservations with
`r.endTime > now`, where `now` is a fresh clock reading. -/
def getActiveReservationsByUser (st : List Reservation) (userId : String)
    (now : Int) : List Reservation :=
  st.filter fun r => r.userId == userId && decide (now < r.endTime)

/-- Source `Database.isRoomAvailable`: no existing reservation of the room overlaps
the candidate interval. -/
def isRoomAvailable (st : List Reservation) (roomId : String)
    (start endT : Int) : Bool :=
  !((st.filter fun r => r.roomId == roomId).any fun r =>
      overlaps start endT r.startTime r.endTime)

/-- Source `Database.deleteReservation`: keep the reservations whose id differs. -/
def deleteReservation (st : List Reservation) (id : String) : List Reservation :=
  st.filter fun r => r.id != id

/-- The three wall-clock readings taken during one create call. -/
structure Clock where
  tNow : Int
  tYear : Int
  tQuota : Int

/-- The distinct error messages thrown by `addReservation`
(`src/services/reservationService.ts`). -/
inductive AddErr where
  | roomNotFound        -- "Room not found"
  | invalidDate         -- "Invalid date format"
  | startNotBeforeEnd   -- "startTime must be before endTime"
  | inPast              -- "Reservations cannot be in the past"
  | tooFar              -- "Reservations can be made max 1 year in advance"
  | tooShort            -- "Minimum reservation length is 15 minutes"
  | tooLong             -- "Maximum reservation length is 8 hours"
  | quotaExceeded       -- "User already has 2 active reservations"
  | conflict            -- "Reservation overlaps with an existing one"
deriving DecidableEq, Repr

/-- The error taxonomy of the transport layer. -/
inductive ErrKind where
  | notFound | invalid | forbidden | conflict
deriving DecidableEq, Repr

/-- The error-kind mapping of the `POST /reservations` handler:
"Room not found" → 404, "User already…" → 403, "Reservation overlaps…" → 409,
anything else → 400. -/
def errKind : AddErr → ErrKind
  | .roomNotFound => .notFound
  | .quotaExceeded => .forbidden
  | .conflict => .conflict
  | _ => .invalid

/-- Source `addReservation` of `src/services/reservationService.ts`: the create
operation.  A throw is modelled as an error result paired with the store as
it was (the source throws strictly before its single mutation,
`db.addReservation`).  Parameters: `addYear` abstracts
`setFullYear(getFullYear()+1)`, `c` carries the three clock readings,
`newId` the id produced by `uuid()`. -/
def addReservation (addYear : Int → Int) (c : Clock) (st : List Reservation)
    (roomId userId : String) (startTime endTime : Option Int) (newId : String) :
    Except AddErr Reservation × List Reservation :=
  if (getRoom roomId).isNone then (.error .roomNotFound, st)
  else
    match startTime, endTime with
    | some start, some endT =>
      if endT ≤ start then (.error .startNotBeforeEnd, st)
      else if start < c.tNow then (.error .inPast, st)
      else if addYear c.tYear < start then (.error .tooFar, st)
      else if endT - start < 15 * 60000 then (.error .tooShort, st)
      else if 480 * 60000 < endT - start then (.error .tooLong, st)
      else if 2 ≤ (getActiveReservationsByUser st userId c.tQuota).length then
        (.error .quotaExceeded, st)
      else if !(isRoomAvailable st roomId start endT) then (.error .conflict, st)
      else
        let r : Reservation := ⟨newId, roomId, userId, start, endT, c.tNow⟩
        (.ok r, st ++ [r])
    | _, _ => (.error .invalidDate, st)

/-- Cancel errors of the `DELETE /reservations/:id` handler. -/
inductive CancelErr where
  | notFound    -- 404 "Reservation not found"
  | forbidden   -- 403 "Cannot cancel another user's reservation"
deriving DecidableEq, Repr

/-- The cancel operation (`DELETE /reservations/:id` in `src/index.ts`):
lookup, ownership check, then `deleteReservation`. -/
def cancelReservation (st : List Reservation) (id userId : String) :
    Except CancelErr Unit × List Reservation :=
  match getReservation st id with
  | none => (.error .notFound, st)
  | some r =>
    if r.userId != userId then (.error .forbidden, st)
    else (.ok (), deleteReservation st id)

/-- One store-mutating operation of the API. -/
inductive Op where
  | create (addYear : Int → Int) (c : Clock) (roomId userId : String)
      (startTime endTime : Option Int) (newId : String)
  | cancel (id userId : String)

/-- The store after one operation. -/
def step (st : List Reservation) (op : Op) : List Reservation :=
  match op with
  | .create ay c rid uid s e nid => (addReservation ay c st rid uid s e nid).2
  | .cancel id uid => (cancelReservation st id uid).2

/-- The store after a sequence of operations, starting empty. -/
def runOps (ops : List Op) : List Reservation :=
  ops.foldl step []

/-- Interval overlap lifted to stored reservations. -/
def resOverlap (a b : Reservation) : Bool :=
  overlaps a.startTime a.endTime b.startTime b.endTime

/-- The store invariant: every stored interval is non-degenerate and, per
room, stored reservations are pairwise non-overlapping. -/
def StoreInv (st : List Reservation) : Prop :=
  (∀ r ∈ st, r.startTime < r.endTime) ∧
  List.Pairwise (fun a b => a.roomId = b.roomId → resOverlap a b = false) st

/-! ## Helper lemmas -/

lemma overlaps_comm (a b x y : Int) : overlaps a b x y = overlaps x y a b := by
  simp [overlaps, Bool.and_comm]

lemma any_filter (l : List Reservation) (p q : Reservation → Bool) :
    (l.filter p).any q = l.any fun r => p r && q r := by
  induction l with
  | nil => rfl
  | cons a t ih =>
    by_cases h : p a = true <;>
      simp [List.filter_cons, List.any_cons, h, ih]

lemma getRoom_isNone_false {roomId : String} (h : (getRoom roomId).isSome = true) :
    (getRoom roomId).isNone = false := by
  cases hx : getRoom roomId with
  | none => rw [hx] at h; simp at h
  | some v => rfl

lemma isSome_of_isNone_false {o : Option Room} (h : o.isNone = false) :
    o.isSome = true := by
  cases o with
  | none => cases h
  | some v => rfl

/-- A create call on which every rule passes commits exactly the new
reservation at the end of the store. -/
lemma addReservation_ok (addYear : Int → Int) (c : Clock) (st : List Reservation)
    (roomId u : String) (s e : Int) (nid : String)
    (hroom : (getRoom roomId).isSome = true)
    (h1 : s < e) (h2 : c.tNow ≤ s) (h3 : s ≤ addYear c.tYear)
    (h4 : 900000 ≤ e - s) (h5 : e - s ≤ 28800000)
    (h6 : (getActiveReservationsByUser st u c.tQuota).length < 2)
    (h7 : isRoomAvailable st roomId s e = true) :
    addReservation addYear c st roomId u (some s) (some e) nid =
      (.ok ⟨nid, roomId, u, s, e, c.tNow⟩, st ++ [⟨nid, roomId, u, s, e, c.tNow⟩]) := by
  simp only [addReservation, getRoom_isNone_false hroom, Bool.false_eq_true, if_false, h7,
    Bool.not_true, if_neg (by omega : ¬ e ≤ s), if_neg (by omega : ¬ s < c.tNow),
    if_neg (by omega : ¬ addYear c.tYear < s),
    if_neg (by omega : ¬ e - s < 15 * 60000), if_neg (by omega : ¬ 480 * 60000 < e - s),
    if_neg (by omega : ¬ 2 ≤ (getActiveReservationsByUser st u c.tQuota).length)]

/-- Every create call either fails leaving the store untouched, or commits a
conflict-checked, non-degenerate reservation at the end of the store. -/
lemma addReservation_cases (addYear : Int → Int) (c : Clock) (st : List Reservation)
    (roomId u : String) (sT eT : Option Int) (nid : String) :
    ((addReservation addYear c st roomId u sT eT nid).2 = st ∧
     ∃ err, (addReservation addYear c st roomId u sT eT nid).1 = .error err) ∨
    (∃ s e, sT = some s ∧ eT = some e ∧ s < e ∧
       isRoomAvailable st roomId s e = true ∧
       addReservation addYear c st roomId u sT eT nid =
         (.ok ⟨nid, roomId, u, s, e, c.tNow⟩,
          st ++ [⟨nid, roomId, u, s, e, c.tNow⟩])) := by
  unfold addReservation
  by_cases h0 : (getRoom roomId).isNone = true
  · rw [if_pos h0]; exact .inl ⟨rfl, _, rfl⟩
  · rw [if_neg h0]
    cases sT with
    | none => cases eT <;> exact .inl ⟨rfl, _, rfl⟩
    | some s =>
      cases eT with
      | none => exact .inl ⟨rfl, _, rfl⟩
      | some e =>
        dsimp only
        by_cases h1 : e ≤ s
        · rw [if_pos h1]; exact .inl ⟨rfl, _, rfl⟩
        · rw [if_neg h1]
          by_cases h2 : s < c.tNow
          · rw [if_pos h2]; exact .inl ⟨rfl, _, rfl⟩
          · rw [if_neg h2]
            by_cases h3 : addYear c.tYear < s
            · rw [if_pos h3]; exact .inl ⟨rfl, _, rfl⟩
            · rw [if_neg h3]
              by_cases h4 : e - s < 15 * 60000
              · rw [if_pos h4]; exact .inl ⟨rfl, _, rfl⟩
              · rw [if_neg h4]
                by_cases h5 : 480 * 60000 < e - s
                · rw [if_pos h5]; exact .inl ⟨rfl, _, rfl⟩
                · rw [if_neg h5]
                  by_cases h6 : 2 ≤ (getActiveReservationsByUser st u c.tQuota).length
                  · rw [if_pos h6]; exact .inl ⟨rfl, _, rfl⟩
                  · rw [if_neg h6]
                    by_cases h7 : isRoomAvailable st roomId s e = true
                    · rw [if_neg (by simp [h7])]
                      exact .inr ⟨s, e, rfl, rfl, by omega, h7, rfl⟩
                    · rw [if_pos (by simp [Bool.not_eq_true] at h7 ⊢; exact h7)]
                      exact .inl ⟨rfl, _, rfl⟩

/-- Every cancel call either leaves the store untouched or filters out the
cancelled id. -/
lemma cancelReservation_cases (st : List Reservation) (id u : String) :
    ((cancelReservation st id u).2 = st ∧
     ∃ err, (cancelReservation st id u).1 = .error err) ∨
    ((cancelReservation st id u).1 = .ok () ∧
     (cancelReservation st id u).2 = deleteReservation st id) := by
  unfold cancelReservation
  cases hf : getReservation st id with
  | none => exact .inl ⟨rfl, _, rfl⟩
  | some r =>
    dsimp only
    by_cases h : (r.userId != u) = true
    · rw [if_pos h]; exact .inl ⟨rfl, _, rfl⟩
    · rw [if_neg h]; exact .inr ⟨rfl, rfl⟩

lemma storeInv_filter (st : List Reservation) (p : Reservation → Bool)
    (h : StoreInv st) : StoreInv (st.filter p) :=
  ⟨fun r hr => h.1 r (List.mem_of_mem_filter hr),
   h.2.sublist (List.filter_sublist st)⟩

lemma isRoomAvailable_spec {st : List Reservation} {roomId : String} {s e : Int}
    (h : isRoomAvailable st roomId s e = true) :
    ∀ x ∈ st, x.roomId = roomId → overlaps s e x.startTime x.endTime = false := by
  intro x hx hroom
  simp only [isRoomAvailable, any_filter, Bool.not_eq_true', List.any_eq_false] at h
  have := h x hx
  rcases hov : overlaps s e x.startTime x.endTime with _ | _
  · rfl
  · simp [hroom, hov] at this

lemma storeInv_append (st : List Reservation) (r : Reservation)
    (h : StoreInv st) (hse : r.startTime < r.endTime)
    (havail : isRoomAvailable st r.roomId r.startTime r.endTime = true) :
    StoreInv (st ++ [r]) := by
  constructor
  · intro x hx
    rcases List.mem_append.1 hx with hx | hx
    · exact h.1 x hx
    · rcases List.mem_singleton.1 hx with rfl
      exact hse
  · rw [List.pairwise_append]
    refine ⟨h.2, List.pairwise_singleton _ _, ?_⟩
    intro a ha b hb hroomEq
    rcases List.mem_singleton.1 hb with rfl
    have := isRoomAvailable_spec havail a ha hroomEq
    rw [resOverlap, overlaps_comm]
    exact this

lemma step_preserves (st : List Reservation) (op : Op) (h : StoreInv st) :
    StoreInv (step st op) := by
  cases op with
  | create ay c rid uid s e nid =>
    rcases addReservation_cases ay c st rid uid s e nid with ⟨heq, _⟩ | ⟨s', e', _, _, hlt, hav, heq⟩
    · rw [step, heq]; exact h
    · rw [step, heq]
      exact storeInv_append st _ h hlt hav
  | cancel id uid =>
    rcases cancelReservation_cases st id uid with ⟨heq, _⟩ | ⟨_, heq⟩
    · rw [step, heq]; exact h
    · rw [step, heq]
      exact storeInv_filter st _ h

lemma runOps_inv (ops : List Op) : StoreInv (runOps ops) := by
  have : ∀ st, StoreInv st → StoreInv (ops.foldl step st) := by
    induction ops with
    | nil => exact fun st h => h
    | cons op t ih => exact fun st h => ih _ (step_preserves st op h)
  exact this [] ⟨by simp, List.Pairwise.nil⟩

/-- Under distinct ids, lookup of a member's id finds that member. -/
lemma getReservation_of_mem_nodup (st : List Reservation) (r0 : Reservation)
    (hnodup : (st.map Reservation.id).Nodup) (hmem : r0 ∈ st) :
    getReservation st r0.id = some r0 := by
  induction st with
  | nil => cases hmem
  | cons a t ih =>
    simp only [List.map_cons, List.nodup_cons] at hnodup
    rcases List.mem_cons.1 hmem with rfl | hm
    · exact List.find?_cons_of_pos _ (by simp)
    · have hne : a.id ≠ r0.id := fun h =>
        hnodup.1 (h ▸ List.mem_map_of_mem Reservation.id hm)
      rw [getReservation, List.find?_cons_of_neg _ (by simp [hne])]
      exact ih hnodup.2 hm

/-- Removing one member with a unique id drops exactly one element from any
filtered count that includes it. -/
lemma length_filter_remove (st : List Reservation) (r0 : Reservation)
    (q : Reservation → Bool)
    (hnodup : (st.map Reservation.id).Nodup) (hmem : r0 ∈ st) (hq : q r0 = true) :
    ((st.filter fun r => r.id != r0.id).filter q).length + 1 =
      (st.filter q).length := by
  induction st with
  | nil => cases hmem
  | cons a t ih =>
    simp only [List.map_cons, List.nodup_cons] at hnodup
    rcases List.mem_cons.1 hmem with rfl | hm
    · have hid : ∀ r ∈ t, (r.id != r0.id) = true := by
        intro r hr
        simp only [bne_iff_ne, ne_eq]
        exact fun h => hnodup.1 (h ▸ List.mem_map_of_mem Reservation.id hr)
      rw [List.filter_cons_of_neg (by simp), List.filter_cons_of_pos hq,
        List.filter_congr hid, List.filter_true, List.length_cons]
    · have hne : (a.id != r0.id) = true := by
        simp only [bne_iff_ne, ne_eq]
        exact fun h => hnodup.1 (h ▸ List.mem_map_of_mem Reservation.id hm)
      have IH := ih hnodup.2 hm
      rcases hqa : q a with _ | _ <;>
        simp [List.filter_cons, hne, hqa, List.filter_filter] at IH ⊢ <;> omega

/-- The active-reservation count can only shrink as the clock advances. -/
lemma active_length_mono (st : List Reservation) (u : String) {t t' : Int}
    (h : t ≤ t') :
    (getActiveReservationsByUser st u t').length ≤
      (getActiveReservationsByUser st u t).length := by
  have hsub : List.Sublist
      (st.filter (fun r => r.userId == u && decide (t' < r.endTime)))
      (st.filter (fun r => r.userId == u && decide (t < r.endTime))) :=
    List.monotone_filter_right st (by
      intro a ha
      simp only [Bool.and_eq_true, beq_iff_eq, decide_eq_true_eq] at ha ⊢
      exact ⟨ha.1, by omega⟩)
  exact hsub.length_le

/-! ## Claims -/

/-- C1: after every sequence of create and cancel operations starting from
the empty store, every stored reservation has `startTime < endTime` and the
reservations of each room are pairwise non-overlapping under the half-open
predicate; moreover a failed create or cancel returns the store exactly as
it was. -/
theorem c1_store_invariants :
    (∀ ops : List Op, StoreInv (runOps ops)) ∧
    (∀ (addYear : Int → Int) (c : Clock) (st : List Reservation)
       (roomId u : String) (sT eT : Option Int) (nid : String) (err : AddErr),
       (addReservation addYear c st roomId u sT eT nid).1 = .error err →
       (addReservation addYear c st roomId u sT eT nid).2 = st) ∧
    (∀ (st : List Reservation) (id u : String) (err : CancelErr),
       (cancelReservation st id u).1 = .error err →
       (cancelReservation st id u).2 = st) := by
  refine ⟨runOps_inv, ?_, ?_⟩
  · intro addYear c st roomId u sT eT nid err herr
    rcases addReservation_cases addYear c st roomId u sT eT nid with
      ⟨heq, _⟩ | ⟨s, e, _, _, _, _, heq⟩
    · exact heq
    · rw [heq] at herr; cases herr
  · intro st id u err herr
    rcases cancelReservation_cases st id u with ⟨heq, _⟩ | ⟨hok, _⟩
    · exact heq
    · rw [hok] at herr; cases herr

/-- A 365-day calendar-year step, used to instantiate the abstract
`addYear` parameter on concrete inputs. -/
def addYear365 : Int → Int := fun t => t + 31536000000

theorem c1_store_invariants_witness :
    StoreInv (runOps
      [Op.create addYear365 ⟨0, 0, 0⟩ "room1" "u1" (some 0) (some 900000) "a",
       Op.cancel "a" "u1"]) ∧
    (addReservation addYear365 ⟨0, 0, 0⟩ [] "nope" "u1"
      (some 0) (some 900000) "a").2 = [] ∧
    (cancelReservation [] "x" "u1").2 = [] :=
  ⟨c1_store_invariants.1 _,
   c1_store_invariants.2.1 addYear365 ⟨0, 0, 0⟩ [] "nope" "u1"
     (some 0) (some 900000) "a" .roomNotFound rfl,
   c1_store_invariants.2.2 [] "x" "u1" .notFound rfl⟩

/-- C6: cancel returns NotFound when no reservation with the id exists;
Forbidden (store unchanged) when the caller does not own it; otherwise it
removes exactly the reservation with that id, and a second cancel of the
same id returns NotFound. -/
theorem c6_cancel_semantics (st : List Reservation) (id u : String) :
    (getReservation st id = none → cancelReservation st id u = (.error .notFound, st)) ∧
    (∀ r, getReservation st id = some r → r.userId ≠ u →
       cancelReservation st id u = (.error .forbidden, st)) ∧
    (∀ r, getReservation st id = some r → r.userId = u →
       (cancelReservation st id u).1 = .ok () ∧
       (cancelReservation st id u).2 = st.filter (fun x => x.id != id) ∧
       (∀ x, x ∈ (cancelReservation st id u).2 ↔ x ∈ st ∧ x.id ≠ id) ∧
       ((st.map Reservation.id).Nodup →
          ((cancelReservation st id u).2).length + 1 = st.length) ∧
       (∀ u', (cancelReservation (cancelReservation st id u).2 id u').1 =
          .error .notFound)) := by
  refine ⟨fun hnone => ?_, fun r hr hne => ?_, fun r hr hown => ?_⟩
  · unfold cancelReservation; rw [hnone]
  · unfold cancelReservation
    rw [hr]
    dsimp only
    rw [if_pos (by simp [hne])]
  · have hrid : r.id = id := by
      have := List.find?_some hr
      simpa using this
    have hcancel : cancelReservation st id u = (.ok (), st.filter fun x => x.id != id) := by
      unfold cancelReservation
      rw [hr]
      dsimp only
      rw [if_neg (by simp [hown])]
      rfl
    have hmem : r ∈ st := List.mem_of_find?_eq_some hr
    refine ⟨by rw [hcancel], by rw [hcancel], fun x => ?_, fun hnodup => ?_, fun u' => ?_⟩
    · rw [hcancel]
      simp [List.mem_filter]
    · rw [hcancel]
      have := length_filter_remove st r (fun _ => true) hnodup hmem rfl
      rw [← hrid] at *
      simpa [List.filter_true] using this
    · rw [hcancel]
      unfold cancelReservation
      have : getReservation (st.filter fun x => x.id != id) id = none := by
        apply List.find?_eq_none.2
        intro x hx
        have := (List.mem_filter.1 hx).2
        simp only [bne_iff_ne, ne_eq] at this
        simp [this]
      rw [this]

theorem c6_cancel_semantics_witness :
    (cancelReservation [(⟨"a", "room1", "u1", 0, 900000, 0⟩ : Reservation)] "a" "u1").1
      = .ok () ∧
    (cancelReservation
      (cancelReservation [(⟨"a", "room1", "u1", 0, 900000, 0⟩ : Reservation)] "a" "u1").2
      "a" "u1").1 = .error .notFound :=
  ⟨((c6_cancel_semantics [⟨"a", "room1", "u1", 0, 900000, 0⟩] "a" "u1").2.2
      ⟨"a", "room1", "u1", 0, 900000, 0⟩ rfl rfl).1,
   ((c6_cancel_semantics [⟨"a", "room1", "u1", 0, 900000, 0⟩] "a" "u1").2.2
      ⟨"a", "room1", "u1", 0, 900000, 0⟩ rfl rfl).2.2.2.2 "u1"⟩

/-- C10: a query whose roomId filter is the empty string behaves as if no
roomId filter were supplied — it returns reservations of every room —
because the store applies the roomId filter only when the supplied value is
truthy. -/
theorem c10_empty_roomid_filter_ignored :
    (∀ (st : List Reservation) (s e : Option Int),
       getReservations st ⟨some "", s, e⟩ = getReservations st ⟨none, s, e⟩) ∧
    (∀ st : List Reservation, getReservations st ⟨some "", none, none⟩ = st) := by
  refine ⟨fun st s e => ?_, fun st => ?_⟩ <;> simp [getReservations]

/-- C2: the overlap predicate is half-open (`overlaps` returns true iff
`aStart < bEnd ∧ bStart < aEnd`); it is the predicate used by both conflict
detection (`isRoomAvailable`) and window-filtered queries
(`getReservations`); and two valid back-to-back reservations
(`A.end = B.start`) can both be created in the same room. -/
theorem c2_halfopen_overlap_adjacency_shared
    (addYear : Int → Int) (c c' : Clock) (roomId u u' idA idB : String)
    (sA eA eB : Int)
    (hroom : (getRoom roomId).isSome = true)
    (hA1 : c.tNow ≤ sA) (hA2 : sA ≤ addYear c.tYear)
    (hA3 : 900000 ≤ eA - sA) (hA4 : eA - sA ≤ 28800000)
    (hB1 : c'.tNow ≤ eA) (hB2 : eA ≤ addYear c'.tYear)
    (hB3 : 900000 ≤ eB - eA) (hB4 : eB - eA ≤ 28800000) :
    (∀ aS aE bS bE : Int, overlaps aS aE bS bE = true ↔ (aS < bE ∧ bS < aE)) ∧
    (∀ (st : List Reservation) (rid : String) (s e : Int),
       isRoomAvailable st rid s e =
         !(st.any fun r => (r.roomId == rid) && overlaps s e r.startTime r.endTime)) ∧
    (∀ (st : List Reservation) (s e : Int),
       getReservations st ⟨none, some s, some e⟩ =
         st.filter fun r => overlaps s e r.startTime r.endTime) ∧
    ((addReservation addYear c [] roomId u (some sA) (some eA) idA).1.isOk = true ∧
     (addReservation addYear c'
        (addReservation addYear c [] roomId u (some sA) (some eA) idA).2
        roomId u' (some eA) (some eB) idB).1.isOk = true) := by
  refine ⟨fun aS aE bS bE => ?_, fun st rid s e => ?_, fun st s e => ?_, ?_⟩
  · simp [overlaps]
  · simp [isRoomAvailable, any_filter]
  · simp [getReservations]
  · have hA := addReservation_ok addYear c [] roomId u sA eA idA hroom
      (by omega) hA1 hA2 hA3 hA4 (by simp [getActiveReservationsByUser])
      (by simp [isRoomAvailable])
    refine ⟨by rw [hA]; rfl, ?_⟩
    rw [hA]
    simp only [List.nil_append]
    have hB := addReservation_ok addYear c' [⟨idA, roomId, u, sA, eA, c.tNow⟩]
      roomId u' eA eB idB hroom (by omega) hB1 hB2 hB3 hB4
      (by have h := List.length_filter_le
            (fun r : Reservation => r.userId == u' && decide (c'.tQuota < r.endTime))
            [(⟨idA, roomId, u, sA, eA, c.tNow⟩ : Reservation)]
          unfold getActiveReservationsByUser
          simp only [List.length_cons, List.length_nil] at h
          omega)
      (by simp [isRoomAvailable, overlaps])
    rw [hB]; rfl

theorem c2_halfopen_overlap_adjacency_shared_witness :
    (addReservation addYear365 ⟨0, 0, 0⟩ [] "room1" "u1"
       (some 0) (some 900000) "a").1.isOk = true ∧
    (addReservation addYear365 ⟨0, 0, 0⟩
       (addReservation addYear365 ⟨0, 0, 0⟩ [] "room1" "u1"
          (some 0) (some 900000) "a").2
       "room1" "u2" (some 900000) (some 1800000) "b").1.isOk = true :=
  (c2_halfopen_overlap_adjacency_shared addYear365 ⟨0, 0, 0⟩ ⟨0, 0, 0⟩
    "room1" "u1" "u2" "a" "b" 0 900000 1800000 rfl
    (by decide) (by decide) (by decide) (by decide)
    (by decide) (by decide) (by decide) (by decide)).2.2.2

/-- C8: with every other rule satisfied, create succeeds exactly when the
duration `end - start` lies in [15 minutes, 8 hours]; shorter durations
fail with the "too short" error and longer ones with "too long". -/
theorem c8_duration_boundaries
    (addYear : Int → Int) (c : Clock) (st : List Reservation)
    (roomId u nid : String) (s e : Int)
    (hroom : (getRoom roomId).isSome = true)
    (h1 : s < e) (h2 : c.tNow ≤ s) (h3 : s ≤ addYear c.tYear)
    (h6 : (getActiveReservationsByUser st u c.tQuota).length < 2)
    (h7 : isRoomAvailable st roomId s e = true) :
    ((addReservation addYear c st roomId u (some s) (some e) nid).1.isOk = true ↔
       (900000 ≤ e - s ∧ e - s ≤ 28800000)) ∧
    (e - s < 900000 →
       (addReservation addYear c st roomId u (some s) (some e) nid).1 =
         .error .tooShort) ∧
    (28800000 < e - s →
       (addReservation addYear c st roomId u (some s) (some e) nid).1 =
         .error .tooLong) := by
  have short : e - s < 900000 →
      (addReservation addYear c st roomId u (some s) (some e) nid).1 =
        .error .tooShort := by
    intro hd
    simp only [addReservation, getRoom_isNone_false hroom, Bool.false_eq_true, if_false,
      if_neg (by omega : ¬ e ≤ s), if_neg (by omega : ¬ s < c.tNow),
      if_neg (by omega : ¬ addYear c.tYear < s),
      if_pos (by omega : e - s < 15 * 60000)]
  have long : 28800000 < e - s →
      (addReservation addYear c st roomId u (some s) (some e) nid).1 =
        .error .tooLong := by
    intro hd
    simp only [addReservation, getRoom_isNone_false hroom, Bool.false_eq_true, if_false,
      if_neg (by omega : ¬ e ≤ s), if_neg (by omega : ¬ s < c.tNow),
      if_neg (by omega : ¬ addYear c.tYear < s),
      if_neg (by omega : ¬ e - s < 15 * 60000),
      if_pos (by omega : 480 * 60000 < e - s)]
  refine ⟨⟨fun hok => ?_, fun hd => ?_⟩, short, long⟩
  · by_contra hc
    rw [not_and_or] at hc
    rcases hc with hc | hc
    · rw [short (by omega)] at hok; cases hok
    · rw [long (by omega)] at hok; cases hok
  · rw [addReservation_ok addYear c st roomId u s e nid hroom h1 h2 h3
      hd.1 hd.2 h6 h7]
    rfl

theorem c8_duration_boundaries_witness :
    ((addReservation addYear365 ⟨0, 0, 0⟩ [] "room1" "u1"
        (some 0) (some 900000) "n").1.isOk = true ↔
       ((900000 : Int) ≤ 900000 - 0 ∧ (900000 : Int) - 0 ≤ 28800000)) ∧
    ((900000 : Int) - 0 < 900000 →
       (addReservation addYear365 ⟨0, 0, 0⟩ [] "room1" "u1"
          (some 0) (some 900000) "n").1 = .error .tooShort) ∧
    ((28800000 : Int) < 900000 - 0 →
       (addReservation addYear365 ⟨0, 0, 0⟩ [] "room1" "u1"
          (some 0) (some 900000) "n").1 = .error .tooLong) :=
  c8_duration_boundaries addYear365 ⟨0, 0, 0⟩ [] "room1" "u1" "n" 0 900000
    rfl (by decide) (by decide) (by decide) (by decide) rfl

/-- C4 counterexample: the horizon bound is computed from a second wall-clock
reading, not from the same "now" used by the past check.  With the past-check
reading at 0 and the later horizon reading at 2000 ms, a request starting one
year plus one second after the past-check "now" is admitted, although the
claim requires it to fail Invalid. -/
theorem c4_horizon_counterexample :
    ((31536001000 : Int) = addYear365 0 + 1000) ∧
    (addReservation addYear365 ⟨0, 2000, 2000⟩ [] "room1" "u1"
       (some 31536001000) (some 31536901000) "r1").1.isOk = true := by
  refine ⟨by decide, ?_⟩
  rw [addReservation_ok addYear365 ⟨0, 2000, 2000⟩ [] "room1" "u1"
    31536001000 31536901000 "r1" rfl (by decide) (by decide) (by decide)
    (by decide) (by decide) (by decide) rfl]
  rfl

/-- C4 (amended): when the horizon clock reading coincides with the
past-check reading, the boundaries are as specified: a start equal to "now"
is admitted, one second before "now" fails with the past error, a start at
exactly one year after "now" is admitted, and one second beyond that fails
with the horizon error. -/
theorem c4_horizon_past_boundaries_amended
    (addYear : Int → Int) (hmono : ∀ t, t ≤ addYear t)
    (c : Clock) (heq : c.tYear = c.tNow) (D : Int) (u nid : String)
    (hD1 : 900000 ≤ D) (hD2 : D ≤ 28800000) :
    (addReservation addYear c [] "room1" u
       (some c.tNow) (some (c.tNow + D)) nid).1.isOk = true ∧
    (addReservation addYear c [] "room1" u
       (some (c.tNow - 1000)) (some (c.tNow - 1000 + D)) nid).1 =
      .error .inPast ∧
    (addReservation addYear c [] "room1" u
       (some (addYear c.tNow)) (some (addYear c.tNow + D)) nid).1.isOk = true ∧
    (addReservation addYear c [] "room1" u
       (some (addYear c.tNow + 1000)) (some (addYear c.tNow + 1000 + D)) nid).1 =
      .error .tooFar := by
  have hroom : (getRoom "room1").isSome = true := rfl
  have hm := hmono c.tNow
  refine ⟨?_, ?_, ?_, ?_⟩
  · rw [addReservation_ok addYear c [] "room1" u c.tNow (c.tNow + D) nid hroom
      (by omega) (le_refl _) (by rw [heq]; exact hm) (by omega) (by omega)
      (by simp [getActiveReservationsByUser]) rfl]
    rfl
  · simp only [addReservation, hroom, Bool.false_eq_true, if_false,
      getRoom_isNone_false hroom,
      if_neg (by omega : ¬ c.tNow - 1000 + D ≤ c.tNow - 1000),
      if_pos (by omega : c.tNow - 1000 < c.tNow)]
  · rw [addReservation_ok addYear c [] "room1" u (addYear c.tNow)
      (addYear c.tNow + D) nid hroom (by omega) hm
      (by rw [heq]) (by omega) (by omega)
      (by simp [getActiveReservationsByUser]) rfl]
    rfl
  · simp only [addReservation, getRoom_isNone_false hroom, Bool.false_eq_true,
      if_false, heq,
      if_neg (by omega : ¬ addYear c.tNow + 1000 + D ≤ addYear c.tNow + 1000),
      if_neg (by omega : ¬ addYear c.tNow + 1000 < c.tNow),
      if_pos (by omega : addYear c.tNow < addYear c.tNow + 1000)]

theorem c4_horizon_past_boundaries_amended_witness :
    (addReservation addYear365 ⟨0, 0, 0⟩ [] "room1" "u1"
       (some 0) (some (0 + 900000)) "n").1.isOk = true ∧
    (addReservation addYear365 ⟨0, 0, 0⟩ [] "room1" "u1"
       (some (0 - 1000)) (some (0 - 1000 + 900000)) "n").1 = .error .inPast ∧
    (addReservation addYear365 ⟨0, 0, 0⟩ [] "room1" "u1"
       (some (addYear365 0)) (some (addYear365 0 + 900000)) "n").1.isOk = true ∧
    (addReservation addYear365 ⟨0, 0, 0⟩ [] "room1" "u1"
       (some (addYear365 0 + 1000)) (some (addYear365 0 + 1000 + 900000)) "n").1 =
      .error .tooFar :=
  c4_horizon_past_boundaries_amended addYear365
    (fun t => by unfold addYear365; omega) ⟨0, 0, 0⟩ rfl 900000 "u1" "n"
    (by decide) (by decide)

/-- C5: the quota check recomputes, at each create call, the caller's stored
reservations whose end lies strictly after the quota clock reading; with
every earlier rule satisfied, create fails with the quota error exactly when
that count is at least 2; and after cancelling one of the caller's two
active reservations, a subsequent valid create succeeds. -/
theorem c5_quota_rule
    (addYear : Int → Int) (c c' : Clock) (st : List Reservation)
    (roomId u nid nid' : String) (s e s' e' : Int) (r0 : Reservation)
    (hroom : (getRoom roomId).isSome = true)
    (h1 : s < e) (h2 : c.tNow ≤ s) (h3 : s ≤ addYear c.tYear)
    (h4 : 900000 ≤ e - s) (h5 : e - s ≤ 28800000) :
    (getActiveReservationsByUser st u c.tQuota =
       st.filter (fun r => r.userId == u && decide (c.tQuota < r.endTime))) ∧
    ((addReservation addYear c st roomId u (some s) (some e) nid).1 =
        .error .quotaExceeded ↔
       2 ≤ (getActiveReservationsByUser st u c.tQuota).length) ∧
    ((getActiveReservationsByUser st u c.tQuota).length = 2 →
     r0 ∈ st → r0.userId = u → c.tQuota < r0.endTime →
     (st.map Reservation.id).Nodup → c.tQuota ≤ c'.tQuota →
     s' < e' → c'.tNow ≤ s' → s' ≤ addYear c'.tYear →
     900000 ≤ e' - s' → e' - s' ≤ 28800000 →
     isRoomAvailable (cancelReservation st r0.id u).2 roomId s' e' = true →
     (addReservation addYear c' (cancelReservation st r0.id u).2 roomId u
        (some s') (some e') nid').1.isOk = true) := by
  refine ⟨rfl, ?_, ?_⟩
  · simp only [addReservation, getRoom_isNone_false hroom, Bool.false_eq_true,
      if_false, if_neg (by omega : ¬ e ≤ s), if_neg (by omega : ¬ s < c.tNow),
      if_neg (by omega : ¬ addYear c.tYear < s),
      if_neg (by omega : ¬ e - s < 15 * 60000),
      if_neg (by omega : ¬ 480 * 60000 < e - s)]
    by_cases hq : 2 ≤ (getActiveReservationsByUser st u c.tQuota).length
    · rw [if_pos hq]
      simpa using hq
    · rw [if_neg hq]
      split <;> simp [hq]
  · intro hlen hmem hown hact hnodup hclock hs1 hs2 hs3 hs4 hs5 hconf
    have hfind : getReservation st r0.id = some r0 :=
      getReservation_of_mem_nodup st r0 hnodup hmem
    have hcancel : (cancelReservation st r0.id u).2 =
        st.filter (fun x => x.id != r0.id) := by
      unfold cancelReservation
      rw [hfind]
      dsimp only
      rw [if_neg (by simp [hown])]
      rfl
    have hcount :
        (getActiveReservationsByUser (cancelReservation st r0.id u).2 u
          c.tQuota).length + 1 = 2 := by
      rw [hcancel]
      unfold getActiveReservationsByUser
      rw [length_filter_remove st r0
        (fun r => r.userId == u && decide (c.tQuota < r.endTime)) hnodup hmem
        (by simp [hown, hact])]
      exact hlen
    have hmono := active_length_mono (cancelReservation st r0.id u).2 u hclock
    rw [addReservation_ok addYear c' (cancelReservation st r0.id u).2 roomId u
      s' e' nid' hroom hs1 hs2 hs3 hs4 hs5 (by omega) hconf]
    rfl

theorem c5_quota_rule_witness :
    (addReservation addYear365 ⟨0, 0, 0⟩
       (cancelReservation
         [(⟨"a", "room1", "u1", 0, 1000000, 0⟩ : Reservation),
          (⟨"b", "room2", "u1", 2000000, 3000000, 0⟩ : Reservation)]
         "a" "u1").2
       "room1" "u1" (some 5000000) (some 5900000) "c").1.isOk = true :=
  (c5_quota_rule addYear365 ⟨0, 0, 0⟩ ⟨0, 0, 0⟩
    [⟨"a", "room1", "u1", 0, 1000000, 0⟩, ⟨"b", "room2", "u1", 2000000, 3000000, 0⟩]
    "room1" "u1" "x" "c" 4000000 4900000 5000000 5900000
    ⟨"a", "room1", "u1", 0, 1000000, 0⟩
    rfl (by decide) (by decide) (by decide) (by decide) (by decide)).2.2
    (by decide) (by decide) rfl (by decide) (by decide) (by decide)
    (by decide) (by decide) (by decide) (by decide) (by decide) (by decide)

/-- Query semantics as the specification words it: roomId is an exact
match, and the window filter is the half-open overlap with an absent start
treated as the beginning of time and an absent end as the end of time
(no bound at all in the open direction). -/
def specQueryMatch (f : QFilter) (r : Reservation) : Bool :=
  (match f.roomId with
   | some rid => r.roomId == rid
   | none => true) &&
  (match f.start with
   | some qs => decide (qs < r.endTime)
   | none => true) &&
  (match f.endT with
   | some qe => decide (r.startTime < qe)
   | none => true)

/-- C7 counterexample: a reservation lying entirely before the epoch
overlaps the window with no lower bound and upper bound 0, yet the query
excludes it, because an absent start bound is the sentinel `new Date(0)`,
not the beginning of time. -/
theorem c7_query_counterexample :
    specQueryMatch ⟨none, none, some 0⟩
      ⟨"c1", "room1", "u1", -172800000, -86400000, 0⟩ = true ∧
    getReservations [⟨"c1", "room1", "u1", -172800000, -86400000, 0⟩]
      ⟨none, none, some 0⟩ = [] := by
  constructor <;> rfl

/-- C7 (amended): no filters returns the whole store; for stores whose
reservations end after `new Date(0)` and start before `new Date("9999-12-31")`
— which create can only exceed under clock settings outside that range — a
non-empty roomId filter and the window filter behave exactly as specified
(exact room match, half-open overlap with absent bounds open-ended), and the
filters compose with logical AND. -/
theorem c7_query_semantics_amended (st : List Reservation) (f : QFilter)
    (hroom : f.roomId ≠ some "")
    (hrange : ∀ r ∈ st, epochMs < r.endTime ∧ r.startTime < farFutureMs) :
    getReservations st f = st.filter (specQueryMatch f) ∧
    getReservations st ⟨none, none, none⟩ = st := by
  constructor
  · apply List.filter_congr
    intro r hr
    rcases hrange r hr with ⟨hr1, hr2⟩
    rcases f with ⟨frid, fs, fe⟩
    rcases frid with _ | rid <;> rcases fs with _ | qs <;> rcases fe with _ | qe <;>
      simp_all [specQueryMatch, overlaps, epochMs, farFutureMs, Bool.and_assoc]
  · simp [getReservations]

theorem c7_query_semantics_amended_witness :
    getReservations
      [(⟨"a", "room1", "u1", 1000, 2000, 0⟩ : Reservation),
       (⟨"b", "room2", "u1", 3000, 4000, 0⟩ : Reservation)]
      ⟨some "room1", some 500, none⟩ =
      List.filter
        (specQueryMatch ⟨some "room1", some 500, none⟩)
        [(⟨"a", "room1", "u1", 1000, 2000, 0⟩ : Reservation),
         (⟨"b", "room2", "u1", 3000, 4000, 0⟩ : Reservation)] ∧
    getReservations
      [(⟨"a", "room1", "u1", 1000, 2000, 0⟩ : Reservation),
       (⟨"b", "room2", "u1", 3000, 4000, 0⟩ : Reservation)]
      ⟨none, none, none⟩ =
      [(⟨"a", "room1", "u1", 1000, 2000, 0⟩ : Reservation),
       (⟨"b", "room2", "u1", 3000, 4000, 0⟩ : Reservation)] :=
  c7_query_semantics_amended
    [⟨"a", "room1", "u1", 1000, 2000, 0⟩, ⟨"b", "room2", "u1", 3000, 4000, 0⟩]
    ⟨some "room1", some 500, none⟩ (by decide) (by decide)

/-- C3: the create pipeline evaluates its nine rules in exactly the
specified order; each error is produced iff its rule is the first violated
one, later checks are never reached after a failure, create succeeds iff no
rule is violated, and the transport maps the errors to the claimed kinds
(room → NotFound, rules 2–7 → Invalid, quota → Forbidden, overlap →
Conflict). -/
theorem c3_validation_pipeline_order
    (addYear : Int → Int) (c : Clock) (st : List Reservation)
    (roomId u nid : String) (sT eT : Option Int) :
    (errKind .roomNotFound = .notFound ∧ errKind .invalidDate = .invalid ∧
     errKind .startNotBeforeEnd = .invalid ∧ errKind .inPast = .invalid ∧
     errKind .tooFar = .invalid ∧ errKind .tooShort = .invalid ∧
     errKind .tooLong = .invalid ∧ errKind .quotaExceeded = .forbidden ∧
     errKind .conflict = .conflict) ∧
    ((addReservation addYear c st roomId u sT eT nid).1 = .error .roomNotFound ↔
       (getRoom roomId).isNone = true) ∧
    ((addReservation addYear c st roomId u sT eT nid).1 = .error .invalidDate ↔
       (getRoom roomId).isNone = false ∧ (sT = none ∨ eT = none)) ∧
    ((addReservation addYear c st roomId u sT eT nid).1 = .error .startNotBeforeEnd ↔
       (getRoom roomId).isNone = false ∧ sT ≠ none ∧ eT ≠ none ∧
       eT.getD 0 ≤ sT.getD 0) ∧
    ((addReservation addYear c st roomId u sT eT nid).1 = .error .inPast ↔
       (getRoom roomId).isNone = false ∧ sT ≠ none ∧ eT ≠ none ∧
       ¬ eT.getD 0 ≤ sT.getD 0 ∧ sT.getD 0 < c.tNow) ∧
    ((addReservation addYear c st roomId u sT eT nid).1 = .error .tooFar ↔
       (getRoom roomId).isNone = false ∧ sT ≠ none ∧ eT ≠ none ∧
       ¬ eT.getD 0 ≤ sT.getD 0 ∧ ¬ sT.getD 0 < c.tNow ∧
       addYear c.tYear < sT.getD 0) ∧
    ((addReservation addYear c st roomId u sT eT nid).1 = .error .tooShort ↔
       (getRoom roomId).isNone = false ∧ sT ≠ none ∧ eT ≠ none ∧
       ¬ eT.getD 0 ≤ sT.getD 0 ∧ ¬ sT.getD 0 < c.tNow ∧
       ¬ addYear c.tYear < sT.getD 0 ∧
       eT.getD 0 - sT.getD 0 < 15 * 60000) ∧
    ((addReservation addYear c st roomId u sT eT nid).1 = .error .tooLong ↔
       (getRoom roomId).isNone = false ∧ sT ≠ none ∧ eT ≠ none ∧
       ¬ eT.getD 0 ≤ sT.getD 0 ∧ ¬ sT.getD 0 < c.tNow ∧
       ¬ addYear c.tYear < sT.getD 0 ∧
       ¬ eT.getD 0 - sT.getD 0 < 15 * 60000 ∧
       480 * 60000 < eT.getD 0 - sT.getD 0) ∧
    ((addReservation addYear c st roomId u sT eT nid).1 = .error .quotaExceeded ↔
       (getRoom roomId).isNone = false ∧ sT ≠ none ∧ eT ≠ none ∧
       ¬ eT.getD 0 ≤ sT.getD 0 ∧ ¬ sT.getD 0 < c.tNow ∧
       ¬ addYear c.tYear < sT.getD 0 ∧
       ¬ eT.getD 0 - sT.getD 0 < 15 * 60000 ∧
       ¬ 480 * 60000 < eT.getD 0 - sT.getD 0 ∧
       2 ≤ (getActiveReservationsByUser st u c.tQuota).length) ∧
    ((addReservation addYear c st roomId u sT eT nid).1 = .error .conflict ↔
       (getRoom roomId).isNone = false ∧ sT ≠ none ∧ eT ≠ none ∧
       ¬ eT.getD 0 ≤ sT.getD 0 ∧ ¬ sT.getD 0 < c.tNow ∧
       ¬ addYear c.tYear < sT.getD 0 ∧
       ¬ eT.getD 0 - sT.getD 0 < 15 * 60000 ∧
       ¬ 480 * 60000 < eT.getD 0 - sT.getD 0 ∧
       ¬ 2 ≤ (getActiveReservationsByUser st u c.tQuota).length ∧
       isRoomAvailable st roomId (sT.getD 0) (eT.getD 0) = false) ∧
    ((addReservation addYear c st roomId u sT eT nid).1.isOk = true ↔
       (getRoom roomId).isNone = false ∧ sT ≠ none ∧ eT ≠ none ∧
       ¬ eT.getD 0 ≤ sT.getD 0 ∧ ¬ sT.getD 0 < c.tNow ∧
       ¬ addYear c.tYear < sT.getD 0 ∧
       ¬ eT.getD 0 - sT.getD 0 < 15 * 60000 ∧
       ¬ 480 * 60000 < eT.getD 0 - sT.getD 0 ∧
       ¬ 2 ≤ (getActiveReservationsByUser st u c.tQuota).length ∧
       ¬ isRoomAvailable st roomId (sT.getD 0) (eT.getD 0) = false) := by
  refine ⟨⟨rfl, rfl, rfl, rfl, rfl, rfl, rfl, rfl, rfl⟩, ?_⟩
  by_cases h0 : (getRoom roomId).isNone = true
  · have hR : (addReservation addYear c st roomId u sT eT nid).1 =
        .error .roomNotFound := by
      simp only [addReservation, if_pos h0]
    rw [hR]
    simp [h0, Except.isOk, Except.toBool] <;>
            (repeat' constructor) <;> intros <;> omega
  · have hb : (getRoom roomId).isNone = false := by
      rcases hx : (getRoom roomId).isNone with _ | _
      · rfl
      · exact absurd hx h0
    cases sT with
    | none =>
      have hR : (addReservation addYear c st roomId u none eT nid).1 =
          .error .invalidDate := by
        simp only [addReservation, hb, Bool.false_eq_true, if_false]
      rw [hR]
      simp [hb, Except.isOk, Except.toBool] <;>
            (repeat' constructor) <;> intros <;> omega
    | some s =>
      cases eT with
      | none =>
        have hR : (addReservation addYear c st roomId u (some s) none nid).1 =
            .error .invalidDate := by
          simp only [addReservation, hb, Bool.false_eq_true, if_false]
        rw [hR]
        simp [hb, Except.isOk, Except.toBool] <;>
            (repeat' constructor) <;> intros <;> omega
      | some e =>
        by_cases h3v : e ≤ s
        · have hR : (addReservation addYear c st roomId u (some s) (some e) nid).1 =
              .error .startNotBeforeEnd := by
            simp only [addReservation, hb, Bool.false_eq_true, if_false]
            rw [if_pos h3v]
          rw [hR]
          simp [hb, h3v, Except.isOk, Except.toBool] <;>
            (repeat' constructor) <;> intros <;> omega
        · by_cases h4v : s < c.tNow
          · have hR : (addReservation addYear c st roomId u (some s) (some e) nid).1 =
                .error .inPast := by
              simp only [addReservation, hb, Bool.false_eq_true, if_false]
              rw [if_neg h3v, if_pos h4v]
            rw [hR]
            simp [hb, h3v, h4v, Except.isOk, Except.toBool] <;>
            (repeat' constructor) <;> intros <;> omega
          · by_cases h5v : addYear c.tYear < s
            · have hR : (addReservation addYear c st roomId u (some s) (some e) nid).1 =
                  .error .tooFar := by
                simp only [addReservation, hb, Bool.false_eq_true, if_false]
                rw [if_neg h3v, if_neg h4v, if_pos h5v]
              rw [hR]
              simp [hb, h3v, h4v, h5v, Except.isOk, Except.toBool] <;>
            (repeat' constructor) <;> intros <;> omega
            · by_cases h6v : e - s < 15 * 60000
              · have hR : (addReservation addYear c st roomId u (some s) (some e) nid).1 =
                    .error .tooShort := by
                  simp only [addReservation, hb, Bool.false_eq_true, if_false]
                  rw [if_neg h3v, if_neg h4v, if_neg h5v, if_pos h6v]
                rw [hR]
                simp [hb, h3v, h4v, h5v, h6v, Except.isOk, Except.toBool] <;>
            (repeat' constructor) <;> intros <;> omega
              · by_cases h7v : 480 * 60000 < e - s
                · have hR : (addReservation addYear c st roomId u (some s) (some e) nid).1 =
                      .error .tooLong := by
                    simp only [addReservation, hb, Bool.false_eq_true, if_false]
                    rw [if_neg h3v, if_neg h4v, if_neg h5v, if_neg h6v, if_pos h7v]
                  rw [hR]
                  simp [hb, h3v, h4v, h5v, h6v, h7v, Except.isOk, Except.toBool] <;>
            (repeat' constructor) <;> intros <;> omega
                · by_cases h8v : 2 ≤ (getActiveReservationsByUser st u c.tQuota).length
                  · have hR : (addReservation addYear c st roomId u (some s) (some e) nid).1 =
                        .error .quotaExceeded := by
                      simp only [addReservation, hb, Bool.false_eq_true, if_false]
                      rw [if_neg h3v, if_neg h4v, if_neg h5v, if_neg h6v, if_neg h7v,
                        if_pos h8v]
                    rw [hR]
                    simp [hb, h3v, h4v, h5v, h6v, h7v, h8v, Except.isOk, Except.toBool] <;>
            (repeat' constructor) <;> intros <;> omega
                  · by_cases h9v : isRoomAvailable st roomId s e = true
                    · have hR : (addReservation addYear c st roomId u (some s) (some e) nid).1 =
                          .ok ⟨nid, roomId, u, s, e, c.tNow⟩ := by
                        rw [addReservation_ok addYear c st roomId u s e nid
                          (isSome_of_isNone_false hb) (by omega) (by omega) (by omega)
                          (by omega) (by omega) (by omega) h9v]
                      rw [hR]
                      simp [hb, h3v, h4v, h5v, h6v, h7v, h8v, h9v, Except.isOk, Except.toBool] <;>
            (repeat' constructor) <;> intros <;> omega
                    · have hav : isRoomAvailable st roomId s e = false := by
                        simpa using h9v
                      have hR : (addReservation addYear c st roomId u (some s) (some e) nid).1 =
                          .error .conflict := by
                        simp only [addReservation, hb, Bool.false_eq_true, if_false]
                        rw [if_neg h3v, if_neg h4v, if_neg h5v, if_neg h6v, if_neg h7v,
                          if_neg h8v, if_pos (by simp [hav])]
                      rw [hR]
                      simp [hb, h3v, h4v, h5v, h6v, h7v, h8v, hav, Except.isOk, Except.toBool] <;>
            (repeat' constructor) <;> intros <;> omega

theorem c3_validation_pipeline_order_witness :
    (addReservation addYear365 ⟨0, 0, 0⟩ [] "nope" "u1"
       (some 0) (some 900000) "n").1 = .error .roomNotFound ↔
      (getRoom "nope").isNone = true :=
  (c3_validation_pipeline_order addYear365 ⟨0, 0, 0⟩ [] "nope" "u1" "n"
    (some 0) (some 900000)).2.1

theorem c10_empty_roomid_filter_ignored_witness :
    getReservations [(⟨"a", "room1", "u1", 0, 900000, 0⟩ : Reservation)]
      ⟨some "", none, none⟩ =
      [(⟨"a", "room1", "u1", 0, 900000, 0⟩ : Reservation)] :=
  c10_empty_roomid_filter_ignored.2 [⟨"a", "room1", "u1", 0, 900000, 0⟩]

end MeetingRoom
